import Mathlib

/-!
Verification of the CHS tides client (`pychs/chs_iwls.py`) against its
natural-language specification.

Shallow-embedding conventions used throughout this file:
* Python floats are modelled as rationals (`ℚ`); the numeric literals that
  occur in the source and in the claims (3.28084, 2.0, 1.5, ...) are exact
  in `ℚ`, so the comparisons performed by the code are unaffected.
* `round(x, 2)` is modelled as rounding to the nearest multiple of 1/100
  (`round2`); the tie-breaking rule is irrelevant for every claim below.
* Timestamps (`eventDate` strings parsed with `strptime` and compared as
  `datetime` values) are modelled as integers; parsing/re-formatting of a
  well-formed timestamp is the identity and is abstracted away.
* Python dicts whose key set is manipulated dynamically (the hi-lo events,
  the `conditions` attribute) are modelled as insertion-ordered association
  lists; dicts with a fixed field set are modelled as structures, with
  `Option` fields for keys that the code `pop`s.
* Network fetches are modelled by an `Env` record supplying each endpoint's
  response; `none` models a transport failure.  A Python exception escaping
  a method is modelled by the failure component of the result, with the
  per-object state reached so far (Python `self` mutations persist across
  a raised exception, so methods return the mutated state alongside the
  success flag).
-/

namespace Pychs

/-- `M2FT : float = 3.28084`, the meters→feet factor (chs_iwls.py line 28). -/
def M2FT : ℚ := 328084 / 100000

/-- Python `round(x, 2)`: round to the nearest multiple of 1/100. -/
def round2 (q : ℚ) : ℚ := (round (q * 100) : ℚ) / 100

/-- The repeated idiom `if self.measurement == 'ft': v = round(v * M2FT, 2)`
(lines 224-225, 269-270, 326-327): the value a height/observation holds after
the optional unit conversion. -/
def convertValue (measurement : String) (v : ℚ) : ℚ :=
  if measurement = "ft" then round2 (v * M2FT) else v

/-- A water-level observation as consumed by `current_conditions`:
`eventDate` (timestamp, modelled as an integer) and `value`. -/
structure Obs where
  eventDate : Int
  value : ℚ
deriving DecidableEq

/-- The `conditions` dict built by `current_conditions` (lines 238-245). -/
structure Conditions where
  value : ℚ
  eventDate : Int
  status : String
deriving DecidableEq

/-- The loop of `current_conditions` (lines 221-237).  State: `prev`/`pdate`
are `event_previous`/`event_date`, `nxt` is `event_next`, `low`/`high` are
the (otherwise unused) running `low_value`/`high_value`.  The `break` after
capturing `event_next` is the early return. -/
def ccLoop (meas : String) (now : Int) :
    List Obs → Option ℚ → Option Int → Option ℚ → ℚ → ℚ →
    Option ℚ × Option Int × Option ℚ
  | [], prev, pdate, nxt, _, _ => (prev, pdate, nxt)
  | e :: rest, prev, pdate, nxt, low, high =>
    let v := convertValue meas e.value
    let low' := if v < low then v else low
    let high' := if high < v then v else high
    let pp := if e.eventDate < now then (some v, some e.eventDate) else (prev, pdate)
    if now < e.eventDate ∧ nxt = none then (pp.1, pp.2, some v)
    else ccLoop meas now rest pp.1 pp.2 nxt low' high'

/-- `CHSTides.current_conditions` (lines 205-247) as a function of the
measurement unit, the current time and the fetched `wlp` window.  The result
is `none` when the Python code would raise (`event_date.strftime` on `None`,
or comparing `None` with `<`), i.e. when no observation strictly before `now`
or no observation strictly after `now` was seen. -/
def current_conditions (meas : String) (now : Int) (tide_data : List Obs) :
    Option Conditions :=
  match ccLoop meas now tide_data none none none 99 (-99) with
  | (some p, some d, some n) =>
    some { value := p, eventDate := d, status := if p < n then "rising" else "falling" }
  | _ => none

example : current_conditions "m" 0 [⟨-3600, 2⟩, ⟨3600, 3⟩] =
    some { value := 2, eventDate := -3600, status := "rising" } := by decide

example : current_conditions "m" 0 [⟨-3600, 3⟩, ⟨3600, 2⟩] =
    some { value := 3, eventDate := -3600, status := "falling" } := by decide

example : current_conditions "m" 0 [⟨-3600, 2⟩, ⟨0, 5⟩, ⟨3600, 1⟩] =
    some { value := 2, eventDate := -3600, status := "falling" } := by decide

lemma ccLoop_at_now (meas : String) (now : Int) (n : Obs) (B : List Obs)
    (hn : now < n.eventDate) :
    ∀ (M : List Obs), (∀ m ∈ M, m.eventDate = now) →
    ∀ (prev : Option ℚ) (pdate : Option Int) (low high : ℚ),
    ccLoop meas now (M ++ n :: B) prev pdate none low high =
      (prev, pdate, some (convertValue meas n.value)) := by
  intro M
  induction M with
  | nil =>
    intro _ prev pdate low high
    have h1 : ¬ n.eventDate < now := by omega
    simp [ccLoop, h1, hn]
  | cons m M ih =>
    intro hM prev pdate low high
    have hm : m.eventDate = now := hM m (by simp)
    have h1 : ¬ m.eventDate < now := by omega
    have h2 : ¬ now < m.eventDate := by omega
    simp only [List.cons_append, ccLoop, if_neg h1, eq_self_iff_true, and_true, if_neg h2]
    exact ih (fun x hx => hM x (by simp [hx])) prev pdate _ _

lemma ccLoop_spec (meas : String) (now : Int) (p n : Obs) (M B : List Obs)
    (hp : p.eventDate < now) (hM : ∀ m ∈ M, m.eventDate = now) (hn : now < n.eventDate) :
    ∀ (A : List Obs), (∀ a ∈ A, a.eventDate < now) →
    ∀ (prev : Option ℚ) (pdate : Option Int) (low high : ℚ),
    ccLoop meas now (A ++ p :: (M ++ n :: B)) prev pdate none low high =
      (some (convertValue meas p.value), some p.eventDate, some (convertValue meas n.value)) := by
  intro A
  induction A with
  | nil =>
    intro _ prev pdate low high
    have h2 : ¬ now < p.eventDate := by omega
    simp only [List.nil_append, ccLoop, if_pos hp, eq_self_iff_true, and_true, if_neg h2]
    exact ccLoop_at_now meas now n B hn M hM _ _ _ _
  | cons a A ih =>
    intro hA prev pdate low high
    have ha : a.eventDate < now := hA a (by simp)
    have h2 : ¬ now < a.eventDate := by omega
    simp only [List.cons_append, ccLoop, if_pos ha, eq_self_iff_true, and_true, if_neg h2]
    exact ih (fun x hx => hA x (by simp [hx])) _ _ _ _

/-- C1 (amended): for a `wlp` observation window walked in chronological
order — a prefix `A` of observations strictly before `now`, then `p` (the
last observation strictly before `now`), then observations `M` exactly at
`now` (which `current_conditions` skips: they are neither `previous` nor
`next`), then `n` (the first observation strictly **after** `now`) and an
arbitrary remainder `B` — the result takes `value`/`eventDate` from `p`
(after unit conversion when the unit is feet) and `status` is `"rising"`
iff `p`'s converted value is strictly below `n`'s converted value, else
`"falling"`.  The amendment: `next` is the first observation strictly
after `now`, not "strictly at/after `now`" as claimed. -/
theorem current_conditions_spec (meas : String) (now : Int)
    (A M B : List Obs) (p n : Obs)
    (hA : ∀ a ∈ A, a.eventDate < now) (hp : p.eventDate < now)
    (hM : ∀ m ∈ M, m.eventDate = now) (hn : now < n.eventDate) :
    current_conditions meas now (A ++ p :: (M ++ n :: B)) =
      some { value := convertValue meas p.value, eventDate := p.eventDate,
             status := if convertValue meas p.value < convertValue meas n.value
                       then "rising" else "falling" } := by
  unfold current_conditions
  rw [ccLoop_spec meas now p n M B hp hM hn A hA none none 99 (-99)]

/-- C1 witness: the claim's own first example, observations
`[(-1h, 2.0), (+1h, 3.0)]` relative to `now = 0`, yields value 2.0 at the
past date with status `"rising"`. -/
theorem current_conditions_spec_witness :
    ((⟨-3600, 2⟩ : Obs).eventDate < (0 : Int) ∧ (0 : Int) < (⟨3600, 3⟩ : Obs).eventDate) ∧
    current_conditions "m" 0 [⟨-3600, 2⟩, ⟨3600, 3⟩] =
      some { value := convertValue "m" 2, eventDate := -3600,
             status := if convertValue "m" 2 < convertValue "m" 3
                       then "rising" else "falling" } :=
  ⟨⟨by decide, by decide⟩,
    current_conditions_spec "m" 0 [] [] [] ⟨-3600, 2⟩ ⟨3600, 3⟩
      (by simp) (by decide) (by simp) (by decide)⟩

/-- C1 counterexample to the claim as stated: with observations
`[(-1h, 2.0), (now, 5.0), (+1h, 1.0)]` the first observation at/after `now`
has value 5.0, so the claim predicts status `"rising"` (2.0 < 5.0); the code
skips the observation dated exactly `now` (it tests `eventDate > currentDT`)
and compares against 1.0, producing `"falling"`. -/
theorem current_conditions_at_now_counterexample :
    current_conditions "m" 0 [⟨-3600, 2⟩, ⟨0, 5⟩, ⟨3600, 1⟩] =
      some { value := 2, eventDate := -3600, status := "falling" } ∧
    ¬ current_conditions "m" 0 [⟨-3600, 2⟩, ⟨0, 5⟩, ⟨3600, 1⟩] =
      some { value := 2, eventDate := -3600, status := "rising" } := by
  constructor
  · decide
  · decide

/-- C9: for every height value `v`, the enrichment conversion to feet
(`round(v * M2FT, 2)`, line 327) followed by the inverse conversion
(division by `M2FT`) reproduces the original metric value to within 0.01:
the rounding error is at most 0.005 ft, i.e. about 0.0015 m. -/
theorem feet_roundtrip (v : ℚ) : |convertValue "ft" v / M2FT - v| ≤ 1 / 100 := by
  have hM : (0 : ℚ) < M2FT := by norm_num [M2FT]
  have hx : |round2 (v * M2FT) - v * M2FT| ≤ 1 / 200 := by
    have h := abs_sub_round (v * M2FT * 100)
    rw [abs_sub_comm] at h
    have hrw : round2 (v * M2FT) - v * M2FT =
        ((round (v * M2FT * 100) : ℚ) - v * M2FT * 100) / 100 := by
      unfold round2; ring
    rw [hrw, abs_div, abs_of_pos (by norm_num : (0 : ℚ) < 100)]
    calc |(round (v * M2FT * 100) : ℚ) - v * M2FT * 100| / 100
        ≤ (1 / 2) / 100 := by
          exact (div_le_div_iff_of_pos_right (by norm_num)).mpr h
      _ = 1 / 200 := by norm_num
  have hconv : convertValue "ft" v = round2 (v * M2FT) := rfl
  have hsplit : round2 (v * M2FT) / M2FT - v = (round2 (v * M2FT) - v * M2FT) / M2FT := by
    rw [sub_div, mul_div_cancel_right₀ v hM.ne']
  rw [hconv, hsplit, abs_div, abs_of_pos hM]
  calc |round2 (v * M2FT) - v * M2FT| / M2FT
      ≤ (1 / 200) / M2FT := (div_le_div_iff_of_pos_right hM).mpr hx
    _ ≤ 1 / 100 := by norm_num [M2FT]

/-- A JSON scalar occurring in an observation dict. -/
inductive JVal where
  | s (v : String)
  | q (v : ℚ)
deriving DecidableEq

/-- A Python dict with string keys: an insertion-ordered association list. -/
abbrev JObj := List (String × JVal)

/-- Python `d[k]` (read); `none` models the `KeyError`. -/
def getAssoc {α : Type} (k : String) : List (String × α) → Option α
  | [] => none
  | (k', v) :: rest => if k' = k then some v else getAssoc k rest

/-- Python `d[k] = v`: update in place when the key exists, else append
(insertion order preserved, as for CPython dicts). -/
def setAssoc {α : Type} (k : String) (v : α) : List (String × α) → List (String × α)
  | [] => [(k, v)]
  | (k', v') :: rest => if k' = k then (k, v) :: rest else (k', v') :: setAssoc k v rest

/-- Python `d.pop(k)`: `none` models the `KeyError` on a missing key. -/
def popAssoc {α : Type} (k : String) : List (String × α) → Option (List (String × α))
  | [] => none
  | (k', v') :: rest =>
    if k' = k then some rest
    else (popAssoc k rest).map (fun r => (k', v') :: r)

/-- The per-event processing of `last_next_hilo` (lines 266-270): strip
`qcFlagCode` and `timeSeriesId`, then rewrite `value` in feet when the
configured unit is feet.  `none` models `KeyError` (missing key) or
`TypeError` (a non-numeric `value` multiplied by a float). -/
def processHiloEvent (meas : String) (event : JObj) : Option JObj := do
  let e1 ← popAssoc ("qcFlagCode") event
  let e2 ← popAssoc ("timeSeriesId") e1
  if meas = "ft" then
    match getAssoc ("value") e2 with
    | some (JVal.q v) => pure (setAssoc ("value") (JVal.q (round2 (v * M2FT))) e2)
    | _ => none
  else pure e2

/-- `lowtideLang[lang]` (lines 253-258). -/
def lowLabel (language : String) : String :=
  if language = "english" then "low tide" else "marée basse"

/-- `hightideLang[lang]` (lines 253-258). -/
def highLabel (language : String) : String :=
  if language = "english" then "high tide" else "marée haute"

/-- `CHSTides.last_next_hilo` (lines 250-278) as a function of the
configured unit and language and of the fetched `wlp-hilo` window.  The
comparison `tide_data[0]["value"] < tide_data[1]["value"]` happens after the
unit conversion; fewer than two events (IndexError) or non-comparable value
types (TypeError) are modelled as `none`. -/
def last_next_hilo (meas language : String) (tide_data : List JObj) :
    Option (List JObj) := do
  let td ← tide_data.mapM (processHiloEvent meas)
  match td with
  | e0 :: e1 :: rest =>
    match getAssoc ("value") e0, getAssoc ("value") e1 with
    | some (JVal.q v0), some (JVal.q v1) =>
      if v0 < v1 then
        pure (setAssoc ("event") (JVal.s (lowLabel language)) e0 ::
              setAssoc ("event") (JVal.s (highLabel language)) e1 :: rest)
      else
        pure (setAssoc ("event") (JVal.s (highLabel language)) e0 ::
              setAssoc ("event") (JVal.s (lowLabel language)) e1 :: rest)
    | some (JVal.s s0), some (JVal.s s1) =>
      if s0 < s1 then
        pure (setAssoc ("event") (JVal.s (lowLabel language)) e0 ::
              setAssoc ("event") (JVal.s (highLabel language)) e1 :: rest)
      else
        pure (setAssoc ("event") (JVal.s (highLabel language)) e0 ::
              setAssoc ("event") (JVal.s (lowLabel language)) e1 :: rest)
    | _, _ => none
  | _ => none

/-- A raw `wlp-hilo` observation as returned by the station-data endpoint,
with its four keys `eventDate`, `qcFlagCode`, `timeSeriesId`, `value`. -/
def stdHiloObs (d f t : String) (v : ℚ) : JObj :=
  [("eventDate", JVal.s d), ("qcFlagCode", JVal.s f), ("timeSeriesId", JVal.s t),
   ("value", JVal.q v)]

lemma processHiloEvent_std (meas d f t : String) (v : ℚ) :
    processHiloEvent meas (stdHiloObs d f t v) =
      some [("eventDate", JVal.s d), ("value", JVal.q (convertValue meas v))] := by
  by_cases hft : meas = "ft" <;>
    simp [processHiloEvent, stdHiloObs, popAssoc, getAssoc, setAssoc, convertValue, hft]

/-- C2: for a pair of hi-lo observations (in either temporal order, with
arbitrary dates and flags) whose converted values differ, `last_next_hilo`
removes `qcFlagCode` and `timeSeriesId` from each observation, converts the
values to feet (× 3.28084 rounded to 2 decimals) when the configured unit is
feet, and tags the observation with the strictly lower (converted) value with
the localized low-tide label and the other with the localized high-tide label
("low tide"/"high tide" for English, "marée basse"/"marée haute" for
French). -/
theorem last_next_hilo_spec (meas language : String) (d1 f1 t1 d2 f2 t2 : String)
    (v1 v2 : ℚ) (hne : convertValue meas v1 ≠ convertValue meas v2) :
    last_next_hilo meas language [stdHiloObs d1 f1 t1 v1, stdHiloObs d2 f2 t2 v2] =
      some [[("eventDate", JVal.s d1), ("value", JVal.q (convertValue meas v1)),
             ("event", JVal.s (if convertValue meas v1 < convertValue meas v2
                               then lowLabel language else highLabel language))],
            [("eventDate", JVal.s d2), ("value", JVal.q (convertValue meas v2)),
             ("event", JVal.s (if convertValue meas v1 < convertValue meas v2
                               then highLabel language else lowLabel language))]] := by
  have h1 := processHiloEvent_std meas d1 f1 t1 v1
  have h2 := processHiloEvent_std meas d2 f2 t2 v2
  simp only [last_next_hilo, List.mapM_cons, List.mapM_nil, h1, h2, Option.pure_def,
    Option.bind_some, Option.bind_eq_bind, Option.some_bind, getAssoc, String.reduceEq,
    reduceIte, setAssoc]
  split_ifs with hc <;> rfl

/-- C2 witness: the claim's example, observations valued 1.5 and 4.2 in
meters with English labels: 1.5 is tagged "low tide" and 4.2 "high tide". -/
theorem last_next_hilo_spec_witness :
    convertValue "m" (3 / 2) ≠ convertValue "m" (21 / 5) ∧
    last_next_hilo "m" "english"
        [stdHiloObs ("date1") ("flag1") ("ts1") (3 / 2),
         stdHiloObs ("date2") ("flag2") ("ts2") (21 / 5)] =
      some [[("eventDate", JVal.s ("date1")), ("value", JVal.q (convertValue "m" (3 / 2))),
             ("event", JVal.s (if convertValue "m" (3 / 2) < convertValue "m" (21 / 5)
                               then lowLabel ("english") else highLabel ("english")))],
            [("eventDate", JVal.s ("date2")), ("value", JVal.q (convertValue "m" (21 / 5))),
             ("event", JVal.s (if convertValue "m" (3 / 2) < convertValue "m" (21 / 5)
                               then highLabel ("english") else lowLabel ("english")))]] :=
  ⟨by simp only [convertValue, String.reduceEq, reduceIte]; norm_num,
    last_next_hilo_spec "m" "english" ("date1") ("flag1") ("ts1") ("date2") ("flag2") ("ts2")
      (3 / 2) (21 / 5) (by simp only [convertValue, String.reduceEq, reduceIte]; norm_num)⟩

/-- A station record from the stations-list endpoint (spec §3
StationSummary; only the fields the core reads are modelled). -/
structure StationSummary where
  id : String
  code : String
  latitude : ℚ
  longitude : ℚ
deriving DecidableEq

/-- An entry of the height-type catalog (`/height-types`). -/
structure HeightType where
  id : String
  code : String
  nameEn : String
  nameFr : String
deriving DecidableEq

/-- A height datum from station metadata.  `heightTypeId` is an `Option`
because enrichment `pop`s it; `code`/`name` are `none` until enrichment
attaches them. -/
structure HeightRaw where
  heightTypeId : Option String
  value : ℚ
  code : Option String := none
  name : Option String := none
deriving DecidableEq

/-- A time-series entry from station metadata; the `Option` fields are the
keys popped or attached by enrichment. -/
structure TimeSeriesRaw where
  id : Option String
  code : String
  phenomenonId : Option String
  nameEn : Option String
  nameFr : Option String
  name : Option String := none
deriving DecidableEq

/-- A bilingual name record (tide-table and phenomenon lookups). -/
structure NamePair where
  nameEn : String
  nameFr : String
deriving DecidableEq

/-- Station metadata (`/stations/{stationId}/metadata`); `tideTableId` is
popped by enrichment in favour of the resolved `tideTable` name. -/
structure StationInfo where
  id : String
  code : String
  heights : List HeightRaw
  timeSeries : List TimeSeriesRaw
  tideTableId : Option String
  tideTable : Option String := none
deriving DecidableEq

/-- The value of `self.station_information`: normally the metadata record,
but the station-code path of `set` assigns the raw stations-list JSON array
to it (line 187). -/
inductive SIVal where
  | info (i : StationInfo)
  | arr (l : List StationSummary)
deriving DecidableEq

/-- A value stored in the `self.conditions` dict (line 202-203). -/
inductive CondVal where
  | cond (c : Conditions)
  | hilo (l : List JObj)
deriving DecidableEq

/-- The observable state of a `CHSTides` object (lines 125-138). -/
structure FacadeState where
  station_id : Option String
  station_code : Option String
  coordinates : Option (ℚ × ℚ)
  language : String
  measurement : String
  station_information : Option SIVal
  conditions : List (String × CondVal)
deriving DecidableEq

/-- One fixed set of upstream responses.  A `none` response models a
transport failure; the response shapes follow spec §3/§4.3 (in particular
the stations endpoints return sequences of station records).  `geo` is the
geodesic-distance oracle (`geopy.distance.distance`), `now` the value of
`datetime.utcnow()`. -/
structure Env where
  stations_list : Option (List StationSummary)
  stations_by_code : String → Option (List StationSummary)
  station_metadata : String → Option StationInfo
  height_types : Option (List HeightType)
  tide_table : String → Option NamePair
  phenomenon : String → Option NamePair
  geo : ℚ × ℚ → ℚ × ℚ → ℚ
  wlp_data : Option (List Obs)
  hilo_data : Option (List JObj)
  now : Int

/-- The key function `station_distance` of `closest_station` (lines 69-70). -/
def station_distance (env : Env) (lat lon : ℚ) (station : StationSummary) : ℚ :=
  env.geo (lat, lon) (station.latitude, station.longitude)

/-- Python `min(iterable, key=f)`: keeps the first element attaining the
minimal key (a later element replaces the current best only when its key is
strictly smaller). -/
def pyMinGo {α : Type} (f : α → ℚ) (best : α) : List α → α
  | [] => best
  | x :: xs => pyMinGo f (if f x < f best then x else best) xs

/-- `closest_station(lat, lon)` (lines 64-74): fetch the stations list and
return the id of the entry minimizing `station_distance`.  `none` models a
transport failure or the `ValueError` raised by `min` on an empty list. -/
def closest_station (env : Env) (lat lon : ℚ) : Option String :=
  match env.stations_list with
  | none => none
  | some [] => none
  | some (x :: xs) => some (pyMinGo (station_distance env lat lon) x xs).id

lemma pyMinGo_spec {α : Type} (f : α → ℚ) :
    ∀ (l : List α) (best : α),
    (pyMinGo f best l = best ∧ ∀ u ∈ l, f best ≤ f u) ∨
    (∃ l1 c l2, l = l1 ++ c :: l2 ∧ pyMinGo f best l = c ∧ f c < f best ∧
      (∀ u ∈ l1, f c < f u) ∧ (∀ u ∈ l2, f c ≤ f u)) := by
  intro l
  induction l with
  | nil => intro best; left; simp [pyMinGo]
  | cons x xs ih =>
    intro best
    by_cases hx : f x < f best
    · rcases ih x with ⟨h1, h2⟩ | ⟨l1, c, l2, hl, hres, hcb, hl1, hl2⟩
      · right
        exact ⟨[], x, xs, by simp, by simp [pyMinGo, if_pos hx, h1], hx, by simp, h2⟩
      · right
        refine ⟨x :: l1, c, l2, by simp [hl], by simp [pyMinGo, if_pos hx, hres], ?_, ?_, hl2⟩
        · exact hcb.trans hx
        · intro u hu
          rcases List.mem_cons.mp hu with rfl | hu
          · exact hcb
          · exact hl1 u hu
    · push_neg at hx
      rcases ih best with ⟨h1, h2⟩ | ⟨l1, c, l2, hl, hres, hcb, hl1, hl2⟩
      · left
        refine ⟨by simp [pyMinGo, if_neg (not_lt.mpr hx), h1], ?_⟩
        intro u hu
        rcases List.mem_cons.mp hu with rfl | hu
        · exact hx
        · exact h2 u hu
      · right
        refine ⟨x :: l1, c, l2, by simp [hl],
          by simp [pyMinGo, if_neg (not_lt.mpr hx), hres], hcb, ?_, hl2⟩
        intro u hu
        rcases List.mem_cons.mp hu with rfl | hu
        · exact hcb.trans_le hx
        · exact hl1 u hu

/-- C3: for every non-empty station catalog, `closest_station` returns the
id of a catalog entry `c` whose distance to the given coordinates is minimal
over the whole catalog, and `c` is the first such entry in catalog order:
every entry strictly before it has strictly greater distance (so the
selection is deterministic given a fixed catalog ordering). -/
theorem closest_station_spec (env : Env) (lat lon : ℚ)
    (stations : List StationSummary)
    (hs : env.stations_list = some stations) (hne : stations ≠ []) :
    ∃ l1 c l2, stations = l1 ++ c :: l2 ∧
      closest_station env lat lon = some c.id ∧
      (∀ u ∈ stations, station_distance env lat lon c ≤ station_distance env lat lon u) ∧
      (∀ u ∈ l1, station_distance env lat lon c < station_distance env lat lon u) := by
  match stations, hne with
  | x :: xs, _ =>
    rcases pyMinGo_spec (station_distance env lat lon) xs x with
      ⟨h1, h2⟩ | ⟨l1, c, l2, hl, hres, hcb, hl1, hl2⟩
    · refine ⟨[], x, xs, by simp, ?_, ?_, by simp⟩
      · simp [closest_station, hs, h1]
      · intro u hu
        rcases List.mem_cons.mp hu with rfl | hu
        · exact le_refl _
        · exact h2 u hu
    · refine ⟨x :: l1, c, l2, by simp [hl], ?_, ?_, ?_⟩
      · simp [closest_station, hs, hres]
      · intro u hu
        rcases List.mem_cons.mp hu with rfl | hu
        · exact hcb.le
        · rw [hl] at hu
          rcases List.mem_append.mp hu with hu | hu
          · exact (hl1 u hu).le
          · rcases List.mem_cons.mp hu with rfl | hu
            · exact le_refl _
            · exact hl2 u hu
      · intro u hu
        rcases List.mem_cons.mp hu with rfl | hu
        · exact hcb
        · exact hl1 u hu

/-- An environment with three stations and a concrete distance oracle
(taxicab metric, standing in for the geodesic oracle) under which the
middle catalog entry is strictly closest to (44, -63). -/
def envGeoWitness : Env where
  stations_list := some
    [⟨"aaaaaaaaaaaaaaaaaaaaaaa1", "00001", 50, -60⟩,
     ⟨"aaaaaaaaaaaaaaaaaaaaaaa2", "00002", 44, -63⟩,
     ⟨"aaaaaaaaaaaaaaaaaaaaaaa3", "00003", 40, -70⟩]
  stations_by_code := fun _ => none
  station_metadata := fun _ => none
  height_types := none
  tide_table := fun _ => none
  phenomenon := fun _ => none
  geo := fun a b => |a.1 - b.1| + |a.2 - b.2|
  wlp_data := none
  hilo_data := none
  now := 0

/-- C3 witness: applying `closest_station_spec` to the concrete three-station
catalog of `envGeoWitness`. -/
theorem closest_station_spec_witness :
    (envGeoWitness.stations_list =
      some [⟨"aaaaaaaaaaaaaaaaaaaaaaa1", "00001", 50, -60⟩,
            ⟨"aaaaaaaaaaaaaaaaaaaaaaa2", "00002", 44, -63⟩,
            ⟨"aaaaaaaaaaaaaaaaaaaaaaa3", "00003", 40, -70⟩] ∧
     ([⟨"aaaaaaaaaaaaaaaaaaaaaaa1", "00001", 50, -60⟩,
       ⟨"aaaaaaaaaaaaaaaaaaaaaaa2", "00002", 44, -63⟩,
       ⟨"aaaaaaaaaaaaaaaaaaaaaaa3", "00003", 40, -70⟩] : List StationSummary) ≠ []) ∧
    ∃ l1 c l2,
      ([⟨"aaaaaaaaaaaaaaaaaaaaaaa1", "00001", 50, -60⟩,
        ⟨"aaaaaaaaaaaaaaaaaaaaaaa2", "00002", 44, -63⟩,
        ⟨"aaaaaaaaaaaaaaaaaaaaaaa3", "00003", 40, -70⟩] : List StationSummary) =
          l1 ++ c :: l2 ∧
      closest_station envGeoWitness 44 (-63) = some c.id ∧
      (∀ u ∈ ([⟨"aaaaaaaaaaaaaaaaaaaaaaa1", "00001", 50, -60⟩,
               ⟨"aaaaaaaaaaaaaaaaaaaaaaa2", "00002", 44, -63⟩,
               ⟨"aaaaaaaaaaaaaaaaaaaaaaa3", "00003", 40, -70⟩] : List StationSummary),
        station_distance envGeoWitness 44 (-63) c ≤ station_distance envGeoWitness 44 (-63) u) ∧
      (∀ u ∈ l1, station_distance envGeoWitness 44 (-63) c <
        station_distance envGeoWitness 44 (-63) u) :=
  ⟨⟨rfl, by decide⟩, closest_station_spec envGeoWitness 44 (-63) _ rfl (by decide)⟩

/-- The bilingual selection `if self.language == 'english': nameEn else
nameFr` used by every enrichment step. -/
def pickName (language : String) (np : NamePair) : String :=
  if language = "english" then np.nameEn else np.nameFr

/-- The body of the loop of `update_heights_metadata` (lines 316-327) for a
single height: scan the whole height-type catalog; every entry whose `id`
equals the height's saved `heightTypeId` attaches `code` and the localized
name and pops `heightTypeId` (a second matching catalog entry would pop an
already-missing key — `KeyError`, modelled as `none`); afterwards the value
is rewritten in feet when the configured unit is feet. -/
def enrichHeight (language meas : String) (height_types : List HeightType)
    (h : HeightRaw) : Option HeightRaw := do
  let htid ← h.heightTypeId
  let h1 ← height_types.foldlM (fun hcur ht =>
    if ht.id = htid then
      match hcur.heightTypeId with
      | some _ => some { hcur with
          code := some ht.code,
          name := some (if language = "english" then ht.nameEn else ht.nameFr),
          heightTypeId := none }
      | none => none
    else some hcur) h
  pure (if meas = "ft" then { h1 with value := round2 (h1.value * M2FT) } else h1)

/-- `update_heights_metadata` (lines 311-327) at the metadata level. -/
def update_heights_metadata (env : Env) (language meas : String)
    (info : StationInfo) : Option StationInfo := do
  let hts ← env.height_types
  let hs ← info.heights.mapM (enrichHeight language meas hts)
  pure { info with heights := hs }

/-- `update_tidetable_metadata` (lines 300-308): resolve `tideTableId` to the
localized tide-table name and pop the id. -/
def update_tidetable_metadata (env : Env) (language : String)
    (info : StationInfo) : Option StationInfo := do
  let ttid ← info.tideTableId
  let tt ← env.tide_table ttid
  pure { info with tideTable := some (pickName language tt), tideTableId := none }

/-- The per-series body of `update_timeseries_metadata` (lines 285-298): pop
`id`, read and pop the series' own `nameEn`/`nameFr` (the intermediate
`name` they produce is immediately overwritten), then resolve the phenomenon
and keep its localized name, popping `phenomenonId`. -/
def enrichTimeSeries (env : Env) (language : String) (ts : TimeSeriesRaw) :
    Option TimeSeriesRaw := do
  let _ ← ts.id
  let _ ← ts.nameEn
  let _ ← ts.nameFr
  let pid ← ts.phenomenonId
  let ph ← env.phenomenon pid
  pure { ts with
    id := none, nameEn := none, nameFr := none,
    phenomenonId := none, name := some (pickName language ph) }

/-- `update_timeseries_metadata` (lines 281-298) at the metadata level. -/
def update_timeseries_metadata (env : Env) (language : String)
    (info : StationInfo) : Option StationInfo := do
  let tss ← info.timeSeries.mapM (enrichTimeSeries env language)
  pure { info with timeSeries := tss }

/-- The enrichment tail of `set` (lines 191-195): fetch the station metadata
into `station_information`, run the three update methods (a failure leaves
the state written so far), then copy the station code out of the enriched
metadata. -/
def set_enrich (env : Env) (s : FacadeState) (sid : String) : Bool × FacadeState :=
  match env.station_metadata sid with
  | none => (false, s)
  | some info =>
    let s1 := { s with station_information := some (SIVal.info info) }
    match update_heights_metadata env s.language s.measurement info with
    | none => (false, s1)
    | some info1 =>
      let s2 := { s1 with station_information := some (SIVal.info info1) }
      match update_tidetable_metadata env s.language info1 with
      | none => (false, s2)
      | some info2 =>
        let s3 := { s2 with station_information := some (SIVal.info info2) }
        match update_timeseries_metadata env s.language info2 with
        | none => (false, s3)
        | some info3 =>
          (true, { s3 with
                   station_information := some (SIVal.info info3),
                   station_code := some info3.code })

/-- `CHSTides.set` (lines 182-195): resolve the station id (from the id
itself, the station-code lookup, or the nearest station to the coordinates),
then enrich.  On the station-code path the stations-list response — a JSON
array per spec §4.3 — is assigned to `station_information` (line 187) and
then subscripted with the string key `"id"` (line 188), which raises
`TypeError` for every list, whatever the number of matching entries: this
path never succeeds, and `station_id` is never assigned on it. -/
def set (env : Env) (s : FacadeState) : Bool × FacadeState :=
  match s.station_id with
  | some sid => set_enrich env s sid
  | none =>
    match s.station_code with
    | some code =>
      match env.stations_by_code code with
      | none => (false, s)
      | some lst => (false, { s with station_information := some (SIVal.arr lst) })
    | none =>
      match s.coordinates with
      | none => (false, s)
      | some c =>
        match closest_station env c.1 c.2 with
        | none => (false, s)
        | some sid => set_enrich env { s with station_id := some sid } sid

lemma set_enrich_spec (env : Env) (s : FacadeState) (sid : String) (s1 : FacadeState)
    (h : set_enrich env s sid = (true, s1)) :
    ∃ info3, s1 = { s with
                    station_information := some (SIVal.info info3),
                    station_code := some info3.code } ∧
      ∀ t : FacadeState, t.language = s.language → t.measurement = s.measurement →
        set_enrich env t sid =
          (true, { t with
                   station_information := some (SIVal.info info3),
                   station_code := some info3.code }) := by
  unfold set_enrich at h
  cases hmd : env.station_metadata sid with
  | none => simp only [hmd] at h; simp at h
  | some info =>
    simp only [hmd] at h
    cases hh : update_heights_metadata env s.language s.measurement info with
    | none => simp only [hh] at h; simp at h
    | some info1 =>
      simp only [hh] at h
      cases htt : update_tidetable_metadata env s.language info1 with
      | none => simp only [htt] at h; simp at h
      | some info2 =>
        simp only [htt] at h
        cases hts : update_timeseries_metadata env s.language info2 with
        | none => simp only [hts] at h; simp at h
        | some info3 =>
          simp only [hts, Prod.mk.injEq, true_and] at h
          refine ⟨info3, by rw [← h], ?_⟩
          intro t hlang hmeas
          unfold set_enrich
          simp only [hmd, hlang, hmeas, hh, htt, hts]

/-- C8: resolution is idempotent for a fixed set of upstream responses: if
`set` succeeds, running `set` again from the resulting state succeeds and
returns a bit-identical state — in particular the same enriched station
record (`station_information`), station id and station code; the second
pass fully replaces (and hence reproduces) the first pass's state. -/
theorem set_idempotent (env : Env) (s s1 : FacadeState)
    (h : set env s = (true, s1)) : set env s1 = (true, s1) := by
  unfold set at h
  cases hsid : s.station_id with
  | some sid =>
    simp only [hsid] at h
    obtain ⟨info3, hs1, hall⟩ := set_enrich_spec env _ sid s1 h
    have hid : s1.station_id = some sid := by rw [hs1]; exact hsid
    have hl : s1.language = s.language := by simp [hs1]
    have hm : s1.measurement = s.measurement := by simp [hs1]
    unfold set
    simp only [hid]
    rw [hall s1 hl hm, hs1]
  | none =>
    simp only [hsid] at h
    cases hcode : s.station_code with
    | some code =>
      simp only [hcode] at h
      cases hbc : env.stations_by_code code with
      | none => simp only [hbc] at h; simp at h
      | some lst => simp only [hbc] at h; simp at h
    | none =>
      simp only [hcode] at h
      cases hco : s.coordinates with
      | none => simp only [hco] at h; simp at h
      | some c =>
        simp only [hco] at h
        cases hcs : closest_station env c.1 c.2 with
        | none => simp only [hcs] at h; simp at h
        | some sid =>
          simp only [hcs] at h
          obtain ⟨info3, hs1, hall⟩ := set_enrich_spec env _ sid s1 h
          have hid : s1.station_id = some sid := by simp [hs1]
          have hl : s1.language = s.language := by simp [hs1]
          have hm : s1.measurement = s.measurement := by simp [hs1]
          unfold set
          simp only [hid]
          rw [hall s1 hl hm, hs1]

/-- Concrete station metadata used by the idempotence witness. -/
def infoSetW : StationInfo where
  id := "5cebf1df3d0f4a073c4bbcb5"
  code := "00482"
  heights := [{ heightTypeId := some ("h1"), value := 2 }]
  timeSeries := [{ id := some ("t1"), code := "wlp", phenomenonId := some ("p1"),
                   nameEn := some ("Predictions"), nameFr := some ("Predictions fr") }]
  tideTableId := some ("tt1")

/-- An environment supplying consistent metadata and reference catalogs for
the idempotence witness. -/
def envSetW : Env where
  stations_list := none
  stations_by_code := fun _ => none
  station_metadata := fun i =>
    if i = "5cebf1df3d0f4a073c4bbcb5" then some infoSetW else none
  height_types := some [⟨"h1", "MWL", "Mean water level", "Niveau moyen"⟩]
  tide_table := fun i => if i = "tt1" then some ⟨"Atlantic", "Atlantique"⟩ else none
  phenomenon := fun i => if i = "p1" then some ⟨"Water level", "Niveau marin"⟩ else none
  geo := fun _ _ => 0
  wlp_data := none
  hilo_data := none
  now := 0

/-- A facade state configured by station id, before resolution. -/
def stSetW : FacadeState where
  station_id := some ("5cebf1df3d0f4a073c4bbcb5")
  station_code := none
  coordinates := none
  language := "english"
  measurement := "m"
  station_information := none
  conditions := []

/-- C8 witness: on the concrete environment `envSetW` the first `set`
succeeds, and `set_idempotent` shows the second `set` from the resulting
state reproduces it exactly. -/
theorem set_idempotent_witness :
    set envSetW stSetW = (true, (set envSetW stSetW).2) ∧
    set envSetW (set envSetW stSetW).2 = (true, (set envSetW stSetW).2) :=
  ⟨by decide, set_idempotent envSetW stSetW _ (by decide)⟩

/-- A facade state configured with station code 00482 (as from
`CHSTides(station_code='00482')`), before resolution. -/
def stByCode : FacadeState where
  station_id := none
  station_code := some ("00482")
  coordinates := none
  language := "english"
  measurement := "m"
  station_information := none
  conditions := []

/-- An environment whose station catalog filtered by code 00482 holds
exactly one matching station record. -/
def envByCode : Env where
  stations_list := none
  stations_by_code := fun c =>
    if c = "00482" then some [⟨"5cebf1df3d0f4a073c4bbcb5", "00482", 44, -63⟩] else none
  station_metadata := fun _ => none
  height_types := none
  tide_table := fun _ => none
  phenomenon := fun _ => none
  geo := fun _ _ => 0
  wlp_data := none
  hilo_data := none
  now := 0

/-- C4 (code bug): with a catalog in which exactly one station matches the
configured code, `set` still fails: line 187 assigns the stations-list JSON
array to `station_information` and line 188 subscripts it with the string
key `"id"`, a `TypeError` for a list of any length, so the station id is
never assigned and the claimed success on a unique match never happens; and
no match count raises the claimed `NotFoundError`, which does not exist in
the code. -/
theorem set_by_code_single_match_fails :
    (set envByCode stByCode).1 = false ∧
    (set envByCode stByCode).2.station_id = none ∧
    (set envByCode stByCode).2.station_information =
      some (SIVal.arr [⟨"5cebf1df3d0f4a073c4bbcb5", "00482", 44, -63⟩]) :=
  ⟨by decide, by decide, by decide⟩

/-- The conditions/hilo tail of `update` (lines 202-203): each of the two
assignments to `self.conditions` lands as soon as its fetch and computation
succeed; a later failure leaves the earlier assignment in place. -/
def refresh_conditions (env : Env) (s : FacadeState) : Bool × FacadeState :=
  match env.wlp_data with
  | none => (false, s)
  | some wl =>
    match current_conditions s.measurement env.now wl with
    | none => (false, s)
    | some c =>
      let s1 := { s with
        conditions := setAssoc ("conditions") (CondVal.cond c) s.conditions }
      match env.hilo_data with
      | none => (false, s1)
      | some hl =>
        match last_next_hilo s.measurement s.language hl with
        | none => (false, s1)
        | some hres =>
          (true, { s1 with
            conditions := setAssoc ("hilo") (CondVal.hilo hres) s1.conditions })

/-- `CHSTides.update` (lines 197-203): resolve first when no station id is
set, then store the two derived condition records. -/
def update (env : Env) (s : FacadeState) : Bool × FacadeState :=
  match s.station_id with
  | some _ => refresh_conditions env s
  | none =>
    match set env s with
    | (false, s1) => (false, s1)
    | (true, s1) => refresh_conditions env s1

/-- C5 (amended): a failure does abort the in-flight `update` call (no
retries, no recovery), and a refresh that fails in the conditions/hi-lo
steps leaves the enriched station record untouched — but the previously
stored conditions record is not always left as it was: the `"conditions"`
entry is overwritten as soon as the `wlp` step succeeds, so when the
subsequent hi-lo step fails the stored record holds the fresh
`"conditions"` value next to the stale `"hilo"` value. -/
theorem update_partial_on_hilo_failure (env : Env) (s : FacadeState)
    (sid : String) (wl : List Obs) (c : Conditions) (hl : List JObj)
    (hsid : s.station_id = some sid)
    (hwlp : env.wlp_data = some wl)
    (hcc : current_conditions s.measurement env.now wl = some c)
    (hhl : env.hilo_data = some hl)
    (hfail : last_next_hilo s.measurement s.language hl = none) :
    update env s =
      (false, { s with
        conditions := setAssoc ("conditions") (CondVal.cond c) s.conditions }) := by
  unfold update refresh_conditions
  simp only [hsid, hwlp, hcc, hhl, hfail]

/-- A facade state holding a previously stored conditions record. -/
def stCond : FacadeState where
  station_id := some ("5cebf1df3d0f4a073c4bbcb5")
  station_code := some ("00482")
  coordinates := none
  language := "english"
  measurement := "m"
  station_information := none
  conditions := [("conditions", CondVal.cond ⟨1, -7200, "falling"⟩),
                 ("hilo", CondVal.hilo [])]

/-- An environment whose `wlp` window is valid but whose `wlp-hilo` window
is empty, so the hi-lo step of a refresh fails (IndexError). -/
def envCond : Env where
  stations_list := none
  stations_by_code := fun _ => none
  station_metadata := fun _ => none
  height_types := none
  tide_table := fun _ => none
  phenomenon := fun _ => none
  geo := fun _ _ => 0
  wlp_data := some [⟨-3600, 2⟩, ⟨3600, 3⟩]
  hilo_data := some []
  now := 0

/-- C5 counterexample: a concrete failed refresh after which the previously
stored conditions record is no longer what it was before the call, refuting
all-or-nothing atomicity as claimed. -/
theorem update_not_all_or_nothing_counterexample :
    (update envCond stCond).1 = false ∧
    (update envCond stCond).2.conditions ≠ stCond.conditions :=
  ⟨by decide, by decide⟩

/-- C5 witness: the amended statement applied to the concrete failing
refresh of `envCond`/`stCond`. -/
theorem update_partial_on_hilo_failure_witness :
    (stCond.station_id = some ("5cebf1df3d0f4a073c4bbcb5") ∧
     envCond.wlp_data = some [⟨-3600, 2⟩, ⟨3600, 3⟩] ∧
     current_conditions stCond.measurement envCond.now [⟨-3600, 2⟩, ⟨3600, 3⟩] =
       some ⟨2, -3600, "rising"⟩ ∧
     envCond.hilo_data = some [] ∧
     last_next_hilo stCond.measurement stCond.language [] = none) ∧
    update envCond stCond =
      (false, { stCond with
        conditions := setAssoc ("conditions")
          (CondVal.cond ⟨2, -3600, "rising"⟩) stCond.conditions }) :=
  ⟨⟨rfl, rfl, by decide, rfl, rfl⟩,
    update_partial_on_hilo_failure envCond stCond _ _ _ _ rfl rfl (by decide) rfl rfl⟩

/-- An entry of the list built by the `heights` property (lines 345-349):
the `code`/`name`/`value` triple copied out of each enriched height. -/
structure HeightOut where
  code : String
  name : String
  value : ℚ
deriving DecidableEq

/-- The copying loop of the `heights` property (lines 343-349): reading
`h["code"]`/`h["name"]` raises `KeyError` (`none`) on an unenriched height;
each iteration appends an independent copy of the reused dict. -/
def projectHeights (s : FacadeState) : Option (List HeightOut) :=
  match s.station_information with
  | some (SIVal.info info) =>
    info.heights.mapM (fun h => do
      let c ← h.code
      let n ← h.name
      pure (⟨c, n, h.value⟩ : HeightOut))
  | _ => none

/-- Stable insertion into a list sorted by non-increasing `value`: `x` goes
before the first entry whose value does not exceed `x`'s. -/
def insertDesc (x : HeightOut) : List HeightOut → List HeightOut
  | [] => [x]
  | y :: ys => if y.value ≤ x.value then x :: y :: ys else y :: insertDesc x ys

/-- Stable sort by non-increasing `value`: extensionally the function
computed by `sorted(height_data, key=value, reverse=True)` on line 350,
since Python's `sorted` is stable and the stable descending sort is unique
as a function. -/
def sortDesc : List HeightOut → List HeightOut
  | [] => []
  | x :: xs => insertDesc x (sortDesc xs)

/-- The `heights` property (lines 339-352). -/
def heights (s : FacadeState) : Option (List HeightOut) :=
  (projectHeights s).map sortDesc

lemma mem_insertDesc {x z : HeightOut} : ∀ {l : List HeightOut},
    z ∈ insertDesc x l → z = x ∨ z ∈ l := by
  intro l
  induction l with
  | nil => simp [insertDesc]
  | cons y ys ih =>
    simp only [insertDesc]
    split_ifs
    · intro h
      rcases List.mem_cons.mp h with rfl | h2
      · exact Or.inl rfl
      · exact Or.inr h2
    · intro h
      rcases List.mem_cons.mp h with rfl | h2
      · exact Or.inr (List.mem_cons_self _ _)
      · rcases ih h2 with rfl | h3
        · exact Or.inl rfl
        · exact Or.inr (List.mem_cons_of_mem _ h3)

lemma insertDesc_pairwise (x : HeightOut) :
    ∀ {l : List HeightOut}, l.Pairwise (fun a b => b.value ≤ a.value) →
    (insertDesc x l).Pairwise (fun a b => b.value ≤ a.value) := by
  intro l
  induction l with
  | nil => intro _; simp [insertDesc]
  | cons y ys ih =>
    intro h
    rw [List.pairwise_cons] at h
    obtain ⟨hy, hys⟩ := h
    by_cases hc : y.value ≤ x.value
    · rw [insertDesc, if_pos hc, List.pairwise_cons]
      refine ⟨?_, List.pairwise_cons.mpr ⟨hy, hys⟩⟩
      intro z hz
      rcases List.mem_cons.mp hz with rfl | hz
      · exact hc
      · exact (hy z hz).trans hc
    · rw [insertDesc, if_neg hc, List.pairwise_cons]
      refine ⟨?_, ih hys⟩
      intro z hz
      rcases mem_insertDesc hz with rfl | hz
      · exact (not_le.mp hc).le
      · exact hy z hz

lemma filter_insertDesc (v : ℚ) (x : HeightOut) : ∀ (l : List HeightOut),
    (insertDesc x l).filter (fun h => decide (h.value = v)) =
      if x.value = v
      then x :: l.filter (fun h => decide (h.value = v))
      else l.filter (fun h => decide (h.value = v)) := by
  intro l
  induction l with
  | nil => by_cases hx : x.value = v <;> simp [insertDesc, hx]
  | cons y ys ih =>
    rw [insertDesc]
    by_cases hc : y.value ≤ x.value
    · rw [if_pos hc]
      by_cases hx : x.value = v <;> simp [List.filter_cons, hx]
    · rw [if_neg hc]
      by_cases hx : x.value = v
      · have hy : ¬ y.value = v := fun h => hc (le_of_eq (h.trans hx.symm))
        simp [List.filter_cons, hy, ih, hx]
      · simp [List.filter_cons, ih, hx]

lemma sortDesc_pairwise : ∀ (l : List HeightOut),
    (sortDesc l).Pairwise (fun a b => b.value ≤ a.value) := by
  intro l
  induction l with
  | nil => simp [sortDesc]
  | cons x xs ih => exact insertDesc_pairwise x ih

lemma sortDesc_filter (v : ℚ) : ∀ (l : List HeightOut),
    (sortDesc l).filter (fun h => decide (h.value = v)) =
      l.filter (fun h => decide (h.value = v)) := by
  intro l
  induction l with
  | nil => rfl
  | cons x xs ih =>
    rw [sortDesc, filter_insertDesc, ih]
    by_cases hx : x.value = v <;> simp [List.filter_cons, hx]

/-- C6: whenever the copying loop of the `heights` property succeeds (every
stored height carries the enriched `code`/`name` keys, extracted as `hd` in
record order), the property returns the stable descending sort of `hd`: the
result is sorted in non-increasing `value` order, and for every value `v`
the entries valued `v` appear in exactly their original relative order
(stability for equal values). -/
theorem heights_sorted_stable (s : FacadeState) (hd : List HeightOut)
    (h : projectHeights s = some hd) :
    heights s = some (sortDesc hd) ∧
    (sortDesc hd).Pairwise (fun a b => b.value ≤ a.value) ∧
    ∀ v : ℚ, (sortDesc hd).filter (fun x => decide (x.value = v)) =
      hd.filter (fun x => decide (x.value = v)) :=
  ⟨by simp [heights, h], sortDesc_pairwise hd, fun v => sortDesc_filter v hd⟩

/-- A facade state whose enriched heights contain a duplicated value, to
exercise sortedness and stability. -/
def stHeights : FacadeState where
  station_id := none
  station_code := none
  coordinates := none
  language := "english"
  measurement := "m"
  station_information := some (SIVal.info
    { id := "x", code := "00000",
      heights := [⟨none, 1, some ("a"), some ("LWL")⟩,
                  ⟨none, 3, some ("b"), some ("HAT")⟩,
                  ⟨none, 3, some ("c"), some ("MWL")⟩,
                  ⟨none, 2, some ("d"), some ("MSL")⟩],
      timeSeries := [], tideTableId := none })
  conditions := []

example : heights stHeights = some
    [⟨"b", "HAT", 3⟩, ⟨"c", "MWL", 3⟩, ⟨"d", "MSL", 2⟩, ⟨"a", "LWL", 1⟩] := by decide

/-- C6 witness: `heights_sorted_stable` applied to the concrete state
`stHeights` (values 1, 3, 3, 2 in record order). -/
theorem heights_sorted_stable_witness :
    projectHeights stHeights = some
      [⟨"a", "LWL", 1⟩, ⟨"b", "HAT", 3⟩, ⟨"c", "MWL", 3⟩, ⟨"d", "MSL", 2⟩] ∧
    (heights stHeights = some (sortDesc
      [⟨"a", "LWL", 1⟩, ⟨"b", "HAT", 3⟩, ⟨"c", "MWL", 3⟩, ⟨"d", "MSL", 2⟩]) ∧
     (sortDesc [⟨"a", "LWL", 1⟩, ⟨"b", "HAT", 3⟩, ⟨"c", "MWL", 3⟩,
                ⟨"d", "MSL", 2⟩]).Pairwise (fun a b => b.value ≤ a.value) ∧
     ∀ v : ℚ, (sortDesc [⟨"a", "LWL", 1⟩, ⟨"b", "HAT", 3⟩, ⟨"c", "MWL", 3⟩,
                ⟨"d", "MSL", 2⟩]).filter (fun x => decide (x.value = v)) =
       ([⟨"a", "LWL", 1⟩, ⟨"b", "HAT", 3⟩, ⟨"c", "MWL", 3⟩,
         ⟨"d", "MSL", 2⟩] : List HeightOut).filter (fun x => decide (x.value = v))) :=
  ⟨by decide, heights_sorted_stable stHeights _ (by decide)⟩

/-- A Python `datetime` value (naive UTC); a valid one has
`microsecond < 1000000` and in-range date/time fields, for which the
fixed-width rendering below matches `%04d`/`%02d`/`%06d`. -/
structure PyDatetime where
  year : Nat
  month : Nat
  day : Nat
  hour : Nat
  minute : Nat
  second : Nat
  microsecond : Nat
deriving DecidableEq

/-- Fixed-width decimal rendering of one datetime field. -/
def padNum (w n : Nat) : List Char :=
  ((List.range w).reverse).map (fun i => Nat.digitChar (n / 10 ^ i % 10))

/-- `datetime.isoformat()` for a naive datetime: `YYYY-MM-DDTHH:MM:SS`,
followed by `.ffffff` exactly when the microsecond component is nonzero. -/
def isoformat (dt : PyDatetime) : List Char :=
  padNum 4 dt.year ++ '-' :: padNum 2 dt.month ++ '-' :: padNum 2 dt.day ++
  'T' :: padNum 2 dt.hour ++ ':' :: padNum 2 dt.minute ++ ':' :: padNum 2 dt.second ++
  (if dt.microsecond = 0 then [] else '.' :: padNum 6 dt.microsecond)

/-- The seconds-precision ISO form `YYYY-MM-DDTHH:MM:SS` of a datetime. -/
def isoformatSeconds (dt : PyDatetime) : List Char :=
  padNum 4 dt.year ++ '-' :: padNum 2 dt.month ++ '-' :: padNum 2 dt.day ++
  'T' :: padNum 2 dt.hour ++ ':' :: padNum 2 dt.minute ++ ':' :: padNum 2 dt.second

/-- The serialization `kwargs[i].isoformat()[:-7] + 'Z'` applied to the
`from`/`to` parameters (line 158); Python `s[:-7]` keeps all but the last
seven characters. -/
def serializeDT (dt : PyDatetime) : List Char :=
  (isoformat dt).take ((isoformat dt).length - 7) ++ ['Z']

/-- A value passed as a query-parameter keyword argument. -/
inductive QPVal where
  | dt (d : PyDatetime)
  | str (v : String)
deriving DecidableEq

/-- The accepted time-series codes (line 153). -/
def timeseriescodes : List String :=
  ["wlo", "wlp", "wlp-hilo", "wlp-bores", "wcp-slack", "wlf", "wlf-spine", "dvcf-spine"]

/-- `CHSTides.validate_query_parameters` (lines 149-164): keep the keyword
arguments named in `params` (in keyword order), serializing `from`/`to`
datetimes and filtering `time-series-code` against the known codes.  `none`
models the `AttributeError` of `.isoformat()` on a non-datetime value. -/
def validate_query_parameters (params : List String)
    (kwargs : List (String × QPVal)) : Option (List (String × QPVal)) :=
  kwargs.foldlM (fun qparams kv =>
    if kv.1 ∈ params then
      if kv.1 = "from" ∨ kv.1 = "to" then
        match kv.2 with
        | QPVal.dt d => some (qparams ++ [(kv.1, QPVal.str (String.mk (serializeDT d)))])
        | QPVal.str _ => none
      else if kv.1 = "time-series-code" then
        match kv.2 with
        | QPVal.str v => if v ∈ timeseriescodes then some (qparams ++ [kv]) else some qparams
        | QPVal.dt _ => some qparams
      else some (qparams ++ [kv])
    else some qparams) []

lemma padNum_length (w n : Nat) : (padNum w n).length = w := by simp [padNum]

lemma isoformat_ms (dt : PyDatetime) (h : dt.microsecond ≠ 0) :
    isoformat dt = isoformatSeconds dt ++ '.' :: padNum 6 dt.microsecond := by
  simp [isoformat, isoformatSeconds, h]

lemma serializeDT_ms (dt : PyDatetime) (h : dt.microsecond ≠ 0) :
    serializeDT dt = isoformatSeconds dt ++ ['Z'] := by
  rw [serializeDT, isoformat_ms dt h]
  have hlen : (isoformatSeconds dt ++ '.' :: padNum 6 dt.microsecond).length =
      (isoformatSeconds dt).length + 7 := by
    simp [padNum_length]
  rw [hlen, Nat.add_sub_cancel, List.take_left]

/-- C7 (amended): for every pair of datetimes with nonzero microsecond
component passed as the `from`/`to` parameters of a station time-series data
request (`params = ['time-series-code','from','to']`, line 359), the
serialized parameter values are the ISO-8601 UTC representations truncated
to second precision with a trailing `Z` (`YYYY-MM-DDTHH:MM:SSZ`).  The
amendment restricts the claim to nonzero microseconds: when the microsecond
component is 0, `isoformat()` carries no `.ffffff` suffix and the `[:-7]`
slice chops the seconds-precision form itself. -/
theorem validate_query_parameters_from_to (d1 d2 : PyDatetime) (code : String)
    (h1 : d1.microsecond ≠ 0) (h2 : d2.microsecond ≠ 0)
    (hcode : code ∈ timeseriescodes) :
    validate_query_parameters ["time-series-code", "from", "to"]
      [("time-series-code", QPVal.str code), ("from", QPVal.dt d1), ("to", QPVal.dt d2)] =
      some [("time-series-code", QPVal.str code),
            ("from", QPVal.str (String.mk (isoformatSeconds d1 ++ ['Z']))),
            ("to", QPVal.str (String.mk (isoformatSeconds d2 ++ ['Z'])))] := by
  simp [validate_query_parameters, hcode, serializeDT_ms d1 h1, serializeDT_ms d2 h2]

example : String.mk (isoformatSeconds ⟨2024, 1, 1, 12, 0, 0, 500000⟩ ++ ['Z']) =
    "2024-01-01T12:00:00Z" := by decide

/-- C7 witness: `validate_query_parameters_from_to` at two concrete
datetimes with nonzero microseconds. -/
theorem validate_query_parameters_from_to_witness :
    ((⟨2024, 1, 1, 12, 0, 0, 500000⟩ : PyDatetime).microsecond ≠ 0 ∧
     (⟨2024, 1, 1, 13, 30, 5, 1⟩ : PyDatetime).microsecond ≠ 0 ∧
     "wlp" ∈ timeseriescodes) ∧
    validate_query_parameters ["time-series-code", "from", "to"]
      [("time-series-code", QPVal.str ("wlp")),
       ("from", QPVal.dt ⟨2024, 1, 1, 12, 0, 0, 500000⟩),
       ("to", QPVal.dt ⟨2024, 1, 1, 13, 30, 5, 1⟩)] =
      some [("time-series-code", QPVal.str ("wlp")),
            ("from", QPVal.str (String.mk
              (isoformatSeconds ⟨2024, 1, 1, 12, 0, 0, 500000⟩ ++ ['Z']))),
            ("to", QPVal.str (String.mk
              (isoformatSeconds ⟨2024, 1, 1, 13, 30, 5, 1⟩ ++ ['Z'])))] :=
  ⟨⟨by decide, by decide, by decide⟩,
    validate_query_parameters_from_to _ _ _ (by decide) (by decide) (by decide)⟩

/-- `datetime(2024, 1, 1, 12, 0, 0)`: a datetime whose microsecond
component is zero. -/
def dtMidday : PyDatetime := ⟨2024, 1, 1, 12, 0, 0, 0⟩

/-- C7 counterexample to the claim as stated: for the microsecond-0 datetime
`dtMidday`, the serialized `from` parameter is the malformed
`"2024-01-01T1Z"` — the `[:-7]` slice removed seven characters of the
seconds-precision form — and not the claimed `"2024-01-01T12:00:00Z"`. -/
theorem validate_query_parameters_microsecond_zero_counterexample :
    validate_query_parameters ["time-series-code", "from", "to"]
      [("from", QPVal.dt dtMidday)] =
      some [("from", QPVal.str ("2024-01-01T1Z"))] ∧
    ¬ validate_query_parameters ["time-series-code", "from", "to"]
      [("from", QPVal.dt dtMidday)] =
      some [("from", QPVal.str (String.mk (isoformatSeconds dtMidday ++ ['Z'])))] :=
  ⟨by decide, by decide⟩

/-- `validate_station_id` (lines 35-41): 24 lowercase-hex characters. -/
def validate_station_id (station_id : String) : Bool :=
  station_id.length == 24 &&
    station_id.data.all (fun c => c.isDigit || ('a' ≤ c && c ≤ 'f'))

/-- `validate_station_code` (lines 44-50): exactly five digits. -/
def validate_station_code (station_code : String) : Bool :=
  station_code.length == 5 && station_code.data.all (fun c => c.isDigit)

/-- The coordinate range checks of the constructor schema (lines 109-112):
latitude in [-90, 90], longitude in [-180, 180]. -/
def validate_coordinates (lat lon : ℚ) : Bool :=
  decide (-90 ≤ lat) && decide (lat ≤ 90) && decide (-180 ≤ lon) && decide (lon ≤ 180)

/-- The keyword arguments accepted by `CHSTides.__init__`; `none` means the
keyword was not supplied (passing an explicit Python `None` for a supplied
keyword is not modelled). -/
structure Kwargs where
  station_id : Option String := none
  station_code : Option String := none
  coordinates : Option (ℚ × ℚ) := none
  measurement : Option String := none
  language : Option String := none

/-- `CHSTides.__init__` (lines 93-138): the schema requires at least one
selector keyword, validates each supplied field, applies the defaults for
`measurement` (`"m"`) and `language` (`"english"`), and then keeps exactly
one selector, preferring `station_id`, then `station_code`, then
`coordinates` (lines 133-138).  `none` models a `vol.Invalid` rejection (or
the `KeyError` of reading an absent `coordinates` key on the fallback
branch). -/
def init (kw : Kwargs) : Option FacadeState :=
  if kw.station_id = none ∧ kw.station_code = none ∧ kw.coordinates = none then none
  else if (match kw.station_id with
           | some i => !(validate_station_id i)
           | none => false) then none
  else if (match kw.station_code with
           | some c => !(validate_station_code c)
           | none => false) then none
  else if (match kw.coordinates with
           | some co => !(validate_coordinates co.1 co.2)
           | none => false) then none
  else
    match (match kw.measurement with
           | none => some ("m")
           | some m => if m = "m" ∨ m = "ft" then some m else none) with
    | none => none
    | some meas =>
      match (match kw.language with
             | none => some ("english")
             | some l => if l = "english" ∨ l = "french" then some l else none) with
      | none => none
      | some lang =>
        let base : FacadeState :=
          { station_id := none, station_code := none, coordinates := none,
            language := lang, measurement := meas,
            station_information := none, conditions := [] }
        match kw.station_id with
        | some i => some { base with station_id := some i }
        | none =>
          match kw.station_code with
          | some c => some { base with station_code := some c }
          | none =>
            match kw.coordinates with
            | some co => some { base with coordinates := some co }
            | none => none

/-- C10: when the constructor is given any combination of individually
valid selector keywords (at least one supplied), construction succeeds and
exactly one selector is retained with the fixed precedence `station_id`
over `station_code` over `coordinates`; the non-selected selector
attributes remain `None`. -/
theorem init_selector_precedence (kw : Kwargs)
    (hid : kw.station_id.all validate_station_id = true)
    (hcode : kw.station_code.all validate_station_code = true)
    (hco : kw.coordinates.all (fun co => validate_coordinates co.1 co.2) = true)
    (hm : kw.measurement.all (fun m => m == "m" || m == "ft") = true)
    (hl : kw.language.all (fun l => l == "english" || l == "french") = true)
    (hone : kw.station_id ≠ none ∨ kw.station_code ≠ none ∨ kw.coordinates ≠ none) :
    ∃ st, init kw = some st ∧
      st.station_id = kw.station_id ∧
      st.station_code = (if kw.station_id = none then kw.station_code else none) ∧
      st.coordinates =
        (if kw.station_id = none ∧ kw.station_code = none then kw.coordinates
         else none) := by
  have hreq : ¬ (kw.station_id = none ∧ kw.station_code = none ∧ kw.coordinates = none) := by
    tauto
  have hv1 : (match kw.station_id with
      | some i => !(validate_station_id i)
      | none => false) = false := by
    cases hkid : kw.station_id with
    | none => rfl
    | some i => rw [hkid] at hid; simp at hid; simp [hid]
  have hv2 : (match kw.station_code with
      | some c => !(validate_station_code c)
      | none => false) = false := by
    cases hkc : kw.station_code with
    | none => rfl
    | some c => rw [hkc] at hcode; simp at hcode; simp [hcode]
  have hv3 : (match kw.coordinates with
      | some co => !(validate_coordinates co.1 co.2)
      | none => false) = false := by
    cases hkco : kw.coordinates with
    | none => rfl
    | some co => rw [hkco] at hco; simp at hco; simp [hco]
  obtain ⟨meas, hmeas⟩ : ∃ x, (match kw.measurement with
      | none => some ("m")
      | some m => if m = "m" ∨ m = "ft" then some m else none) = some x := by
    cases hkm : kw.measurement with
    | none => exact ⟨"m", rfl⟩
    | some m =>
      rw [hkm] at hm; simp at hm
      exact ⟨m, by simp [hm]⟩
  obtain ⟨lang, hlang⟩ : ∃ x, (match kw.language with
      | none => some ("english")
      | some l => if l = "english" ∨ l = "french" then some l else none) = some x := by
    cases hkl : kw.language with
    | none => exact ⟨"english", rfl⟩
    | some l =>
      rw [hkl] at hl; simp at hl
      exact ⟨l, by simp [hl]⟩
  cases hkid : kw.station_id with
  | some i =>
    simp [init, hreq, hv1, hv2, hv3, hmeas, hlang, hkid]
    refine ⟨_, ⟨?_, rfl⟩, rfl, rfl, rfl⟩
    rw [hkid] at hid; simpa using hid
  | none =>
    cases hkc : kw.station_code with
    | some c =>
      simp [init, hreq, hv1, hv2, hv3, hmeas, hlang, hkid, hkc]
      refine ⟨_, ⟨?_, rfl⟩, rfl, rfl, rfl⟩
      rw [hkc] at hcode; simpa using hcode
    | none =>
      cases hkco : kw.coordinates with
      | none => exact absurd ⟨hkid, hkc, hkco⟩ hreq
      | some co =>
        simp [init, hreq, hv1, hv2, hv3, hmeas, hlang, hkid, hkc, hkco]
        refine ⟨_, ⟨?_, rfl⟩, rfl, rfl, rfl⟩
        rw [hkco] at hco; simpa using hco

/-- Keyword arguments supplying all three selectors together, each valid. -/
def kwAll : Kwargs where
  station_id := some ("5cebf1df3d0f4a073c4bbcb5")
  station_code := some ("00482")
  coordinates := some (44, -63)
  measurement := some ("ft")
  language := some ("french")

/-- C10 witness: with all three selectors supplied and valid, construction
succeeds, keeps `station_id`, and leaves the other selectors `None`. -/
theorem init_selector_precedence_witness :
    (kwAll.station_id.all validate_station_id = true ∧
     kwAll.station_code.all validate_station_code = true ∧
     kwAll.coordinates.all (fun co => validate_coordinates co.1 co.2) = true ∧
     kwAll.measurement.all (fun m => m == "m" || m == "ft") = true ∧
     kwAll.language.all (fun l => l == "english" || l == "french") = true ∧
     (kwAll.station_id ≠ none ∨ kwAll.station_code ≠ none ∨ kwAll.coordinates ≠ none)) ∧
    ∃ st, init kwAll = some st ∧
      st.station_id = kwAll.station_id ∧
      st.station_code = (if kwAll.station_id = none then kwAll.station_code else none) ∧
      st.coordinates =
        (if kwAll.station_id = none ∧ kwAll.station_code = none then kwAll.coordinates
         else none) :=
  ⟨⟨by decide, by decide, by decide, by decide, by decide, by decide⟩,
    init_selector_precedence kwAll (by decide) (by decide) (by decide) (by decide)
      (by decide) (by decide)⟩

end Pychs
